import Mathlib

/-!
Verification of the deep-research-articles MCP server
(src/plugin/src/mcp-server.ts and its revision in src/unnamed/part_003).

JS strings are modelled as lists of characters (`Str`); JSON object
payloads returned by the tool handlers are modelled as ordered lists of
(field name, field value) pairs, mirroring the object literals passed to
JSON.stringify in the source.  External generative calls are modelled as
oracle parameters, so every theorem quantifies over all possible
behaviours of the external service.
-/

/-- JS strings are sequences of characters. -/
abbrev Str := List Char

/-- Coerce a Lean string literal to the `Str` model. -/
def str (s : String) : Str := s.toList

/-! ## Job store data model (mcp-server.ts lines 24-38 / part_003 lines 88-104) -/

/-- The status union of a ResearchJob: "pending" | "running" | "complete" | "failed". -/
inductive JStatus
  | pending
  | running
  | complete
  | failed
deriving DecidableEq, Repr

/-- The literal string stored in the job's status field. -/
def statusText : JStatus → Str
  | .pending => str "pending"
  | .running => str "running"
  | .complete => str "complete"
  | .failed => str "failed"

/-- ResearchJob (part_003 lines 88-96); startedAt and interactionId are never read
by the status or result handlers and are omitted. -/
structure ResearchJob where
  id : Str
  status : JStatus
  result : Option Str
  error : Option Str
  outputPath : Option Str

/-- The in-memory `jobs` Map keyed by job id, modelled as an association list
with first-match lookup (JS Map keys are unique, so first match is the match). -/
def storeGet (store : List (Str × ResearchJob)) (jobId : Str) : Option ResearchJob :=
  match store with
  | [] => none
  | kv :: rest => if kv.1 = jobId then some kv.2 else storeGet rest jobId

/-! ## check_research_status handler (part_003 lines 417-438) -/

/-- check_research_status: unknown id yields the "Job not found" object; otherwise
an object with job_id and status fields, plus an error field when job.error is set. -/
def check_research_status (store : List (Str × ResearchJob)) (jobId : Str) :
    List (Str × Str) :=
  match storeGet store jobId with
  | none => [(str "error", str "Job not found")]
  | some job =>
      [(str "job_id", jobId), (str "status", statusText job.status)] ++
        (match job.error with
         | some e => [(str "error", e)]
         | none => [])

/-! ## get_research_result handler (part_003 lines 440-466) -/

/-- get_research_result: unknown id yields "Job not found"; a job whose status is
not complete yields the "Job not complete" object carrying the status; a complete
job yields saved_to when an outputPath was recorded, else the result field
(JSON.stringify drops a field whose value is undefined, hence the empty object
when result is missing). -/
def get_research_result (store : List (Str × ResearchJob)) (jobId : Str) :
    List (Str × Str) :=
  match storeGet store jobId with
  | none => [(str "error", str "Job not found")]
  | some job =>
      if job.status ≠ JStatus.complete then
        [(str "error", str "Job not complete"), (str "status", statusText job.status)]
      else
        match job.outputPath with
        | some p => [(str "saved_to", p)]
        | none =>
          match job.result with
          | some r => [(str "result", r)]
          | none => []

/-! ## Job status transition system

The writes to a job's status field in the source are:
 - creation with status "running" (part_003 lines 398-404);
 - `job.status = "complete"` in performDeepResearch when the interaction
   polls as completed (part_003 line 232), reachable only while the job is
   still running (the only earlier status write in the function is the
   catch, which exits by rethrowing);
 - `job.status = "failed"` in the catch of performDeepResearch
   (part_003 line 244).  Most throw sites in the try body run while the
   job is still running, but one runs after the complete write: when the
   job has no outputPath and the completed interaction's last output has
   no text field, report is undefined (lines 218-220), line 230 stores it
   and line 232 sets complete without throwing, and then the logging
   template on line 233 evaluates report.length and throws a TypeError —
   so the catch can also rewrite a complete job to failed;
 - `job.status = "failed"` in the fire-and-forget catch at the call site
   (part_003 lines 407-410), which runs only after performDeepResearch
   rethrew, i.e. only when the inner catch already set failed.
The plugin revision (mcp-server.ts lines 226-234) uses then/catch, of
which exactly one runs, both from running: its writes are a subset of
these. -/
inductive JobWrite : JStatus → JStatus → Prop
  | completePoll : JobWrite .running .complete
  | failCatchInner : JobWrite .running .failed
  | logThrowCatch : JobWrite .complete .failed
  | failCatchOuter : JobWrite .failed .failed

/-- complete and failed are the terminal statuses. -/
def isTerminal : JStatus → Bool
  | .complete => true
  | .failed => true
  | _ => false

/-- Position of a status along the pending → running → terminal chain. -/
def statusRank : JStatus → Nat
  | .pending => 0
  | .running => 1
  | .complete => 2
  | .failed => 2

/-! ## generate_articles handler (part_003 lines 468-487)

The two generateArticle calls are joined with Promise.all; a rejection of
either rejects the join, which the catch-all (part_003 lines 593-598) turns
into the error envelope.  The boolean `firstRejected` models the timing
nondeterminism of which rejection settles the join first when both fail. -/

/-- Outcome of one generateArticle call: resolved text or a thrown message. -/
def ArticleOutcome := Except Str Str

/-- True when the call rejected. -/
def articleFailed : ArticleOutcome → Bool
  | .error _ => true
  | .ok _ => false

/-- generate_articles: Promise.all over the pro and flash calls, success keyed
by variant name, any rejection converted to the catch-all error envelope. -/
def generate_articles (firstRejected : Bool) (pro flash : ArticleOutcome) :
    List (Str × Str) :=
  match pro, flash with
  | .ok a, .ok b => [(str "pro_article", a), (str "flash_article", b)]
  | .error e, .ok _ => [(str "error", e)]
  | .ok _, .error e => [(str "error", e)]
  | .error e1, .error e2 => [(str "error", if firstRejected then e1 else e2)]

/-! ## start_deep_research handler (part_003 lines 392-415)

The handler reads args?.spec with a bare type assertion and performs no
check at all: it unconditionally registers a running job, invokes
performDeepResearch on whatever value (possibly absent) was supplied, and
returns the success envelope. -/

/-- The raw spec value as received; the handler never inspects it before
dispatching, so its content is irrelevant. -/
structure ResearchSpecV where
  raw : Str

/-- Observable effects of one start_deep_research call. -/
structure StartResult where
  response : List (Str × Str)
  jobRegistered : Bool
  researchTaskStarted : Bool

/-- start_deep_research: no validation of the required spec argument; the job is
registered and the background task started unconditionally, and the success
envelope is returned even when spec is absent. -/
def start_deep_research (spec : Option ResearchSpecV) (jobId : Str)
    (outputPath : Option Str) : StartResult :=
  match spec, outputPath with
  | _, _ =>
    { response := [(str "job_id", jobId), (str "status", str "running")]
      jobRegistered := true
      researchTaskStarted := true }

/-! ## Claim theorems for the job store and fan-out -/

/-- C3: if either variant call fails, generate_articles returns the error
envelope and no partial mapping (neither article key appears); if both succeed,
the response carries both variants keyed by pro_article and flash_article,
independent of which call finished first (the conclusion does not depend on
the settling order `ord`). -/
theorem generate_articles_all_or_nothing (ord : Bool) (pro flash : ArticleOutcome) :
    (∀ a b, pro = .ok a → flash = .ok b →
      generate_articles ord pro flash = [(str "pro_article", a), (str "flash_article", b)]) ∧
    ((articleFailed pro = true ∨ articleFailed flash = true) →
      ∃ m, generate_articles ord pro flash = [(str "error", m)] ∧
        ∀ v, (str "pro_article", v) ∉ generate_articles ord pro flash ∧
          (str "flash_article", v) ∉ generate_articles ord pro flash) := by
  constructor
  · rintro a b rfl rfl
    rfl
  · intro hfail
    cases pro with
    | ok a =>
      cases flash with
      | ok b => simp [articleFailed] at hfail
      | error e => exact ⟨e, rfl, by simp [generate_articles, str]⟩
    | error e =>
      cases flash with
      | ok b => exact ⟨e, rfl, by simp [generate_articles, str]⟩
      | error e2 =>
        refine ⟨if ord then e else e2, rfl, ?_⟩
        simp [generate_articles, str]

/-- Witness for C3 at a concrete failing flash call. -/
theorem generate_articles_all_or_nothing_witness :
    ∃ m, generate_articles true (Except.ok (str "A")) (Except.error (str "boom")) =
      [(str "error", m)] ∧
      ∀ v, (str "pro_article", v) ∉
          generate_articles true (Except.ok (str "A")) (Except.error (str "boom")) ∧
        (str "flash_article", v) ∉
          generate_articles true (Except.ok (str "A")) (Except.error (str "boom")) :=
  (generate_articles_all_or_nothing true (Except.ok (str "A"))
    (Except.error (str "boom"))).2 (Or.inr rfl)

/-- C4 counterexample: a start_deep_research request missing its required spec
argument is not rejected: the handler still registers the job, starts the
research task, and returns the success envelope, which contains no error field
at all — contradicting the claim that the gateway validates required arguments
before dispatching and returns a structured validation error without invoking
any component. -/
theorem start_deep_research_no_validation_counterexample :
    (start_deep_research none (str "job_1") none).researchTaskStarted = true ∧
    (start_deep_research none (str "job_1") none).jobRegistered = true ∧
    ∀ kv ∈ (start_deep_research none (str "job_1") none).response, kv.1 ≠ str "error" := by
  refine ⟨rfl, rfl, ?_⟩
  intro kv hkv
  simp [start_deep_research, str] at hkv
  rcases hkv with h | h <;> simp [h, str]

/-- C4 amended: the Tool Gateway performs no pre-dispatch validation of
required arguments: for every (possibly missing) spec value, start_deep_research
registers a job, starts the research task, and returns the
job_id/status:running success envelope; missing or malformed arguments are
never answered with a pre-dispatch validation error. -/
theorem start_deep_research_no_validation (spec : Option ResearchSpecV)
    (jobId : Str) (outputPath : Option Str) :
    (start_deep_research spec jobId outputPath).response =
      [(str "job_id", jobId), (str "status", str "running")] ∧
    (start_deep_research spec jobId outputPath).jobRegistered = true ∧
    (start_deep_research spec jobId outputPath).researchTaskStarted = true :=
  ⟨rfl, rfl, rfl⟩

/-- C5 counterexample: the status failed is reachable from the status complete
in one write — the catch of performDeepResearch rewrites a complete job to
failed when the logging statement after the complete write throws (part_003
lines 218-220, 230-233, 244) — so complete is a terminal status that is not
absorbing: a poll can observe complete and a later poll of the same job can
observe failed, refuting one-directional movement along the
pending → running → terminal chain. -/
theorem job_status_complete_to_failed_counterexample :
    Relation.ReflTransGen JobWrite JStatus.complete JStatus.failed ∧
    isTerminal JStatus.complete = true ∧
    JStatus.failed ≠ JStatus.complete :=
  ⟨Relation.ReflTransGen.single JobWrite.logThrowCatch, rfl, by decide⟩

/-- C5 amended: every status write weakly increases the rank along
pending → running → terminal, and once a poll observes complete or failed,
every later reachable status is terminal — never running and never pending,
so no terminal job is ever re-entered to running — but a job observed
complete can later be observed failed, because the logging statement after
the complete write can throw and the catch then rewrites the status to
failed. -/
theorem job_status_forward_only :
    (∀ s t, JobWrite s t → statusRank s ≤ statusRank t) ∧
    (∀ s t, isTerminal s = true → Relation.ReflTransGen JobWrite s t →
      isTerminal t = true ∧ t ≠ JStatus.running ∧ t ≠ JStatus.pending) := by
  constructor
  · intro s t h
    cases h <;> simp [statusRank]
  · intro s t hs h
    have hterm : isTerminal t = true := by
      induction h with
      | refl => exact hs
      | @tail b c hsb hbc ih =>
        cases hbc with
        | completePoll => simp [isTerminal] at ih
        | failCatchInner => simp [isTerminal] at ih
        | logThrowCatch => rfl
        | failCatchOuter => rfl
    refine ⟨hterm, ?_, ?_⟩ <;> (intro heq; subst heq; simp [isTerminal] at hterm)

/-- Witness for C5 amended, exercising the complete-to-failed write: after a
poll observed complete, a later poll can return failed, which is terminal and
neither running nor pending. -/
theorem job_status_forward_only_witness :
    isTerminal JStatus.failed = true ∧ JStatus.failed ≠ JStatus.running ∧
    JStatus.failed ≠ JStatus.pending :=
  job_status_forward_only.2 JStatus.complete JStatus.failed rfl
    (Relation.ReflTransGen.single JobWrite.logThrowCatch)

/-- C6: for a job_id absent from the store both check_research_status and
get_research_result return the "Job not found" object, and for a job_id that
exists but is not complete, get_research_result returns the "Job not complete"
object carrying the status field, which differs from the not-found object, so
the two error conditions are distinguishable. -/
theorem unknown_job_distinguishable (store : List (Str × ResearchJob)) (jobId : Str) :
    (storeGet store jobId = none →
      check_research_status store jobId = [(str "error", str "Job not found")] ∧
      get_research_result store jobId = [(str "error", str "Job not found")]) ∧
    (∀ job, storeGet store jobId = some job → job.status ≠ JStatus.complete →
      get_research_result store jobId =
        [(str "error", str "Job not complete"), (str "status", statusText job.status)] ∧
      get_research_result store jobId ≠ [(str "error", str "Job not found")]) := by
  constructor
  · intro h
    constructor <;> simp [check_research_status, get_research_result, h]
  · intro job hj hs
    constructor
    · simp [get_research_result, hj, hs]
    · simp [get_research_result, hj, hs]

/-- Witness for C6: concrete empty store (unknown id) and a concrete running
job (known id, not complete). -/
theorem unknown_job_distinguishable_witness :
    check_research_status [] (str "j1") = [(str "error", str "Job not found")] ∧
    get_research_result
        [(str "j1", ⟨str "j1", JStatus.running, none, none, none⟩)] (str "j1") =
      [(str "error", str "Job not complete"), (str "status", str "running")] :=
  ⟨((unknown_job_distinguishable [] (str "j1")).1 rfl).1,
   ((unknown_job_distinguishable
      [(str "j1", ⟨str "j1", JStatus.running, none, none, none⟩)] (str "j1")).2
      ⟨str "j1", JStatus.running, none, none, none⟩ (by simp [storeGet])
      (by simp)).1⟩

/-- C10: for a job recorded as failed, get_research_result returns exactly the
constant object with error "Job not complete" and status "failed" — never the
job's recorded error text and never a result value — while the recorded error
text is surfaced by check_research_status as its error field. -/
theorem failed_job_result_not_complete (store : List (Str × ResearchJob))
    (jobId : Str) (job : ResearchJob) (hj : storeGet store jobId = some job)
    (hf : job.status = JStatus.failed) :
    get_research_result store jobId =
      [(str "error", str "Job not complete"), (str "status", str "failed")] ∧
    check_research_status store jobId =
      [(str "job_id", jobId), (str "status", str "failed")] ++
        (match job.error with
         | some e => [(str "error", e)]
         | none => []) ∧
    (∀ e, job.error = some e → (str "error", e) ∈ check_research_status store jobId) := by
  refine ⟨?_, ?_, ?_⟩
  · simp [get_research_result, hj, hf, statusText]
  · simp [check_research_status, hj, hf, statusText]
  · intro e he
    simp [check_research_status, hj, hf, he, statusText]

/-- Witness for C10 at a concrete failed job carrying an error text. -/
theorem failed_job_result_not_complete_witness :
    get_research_result
        [(str "j2", ⟨str "j2", JStatus.failed, none, some (str "boom"), none⟩)]
        (str "j2") =
      [(str "error", str "Job not complete"), (str "status", str "failed")] ∧
    (str "error", str "boom") ∈
      check_research_status
        [(str "j2", ⟨str "j2", JStatus.failed, none, some (str "boom"), none⟩)]
        (str "j2") :=
  ⟨(failed_job_result_not_complete _ (str "j2")
      ⟨str "j2", JStatus.failed, none, some (str "boom"), none⟩
      (by simp [storeGet]) rfl).1,
   (failed_job_result_not_complete _ (str "j2")
      ⟨str "j2", JStatus.failed, none, some (str "boom"), none⟩
      (by simp [storeGet]) rfl).2.2 (str "boom") rfl⟩

/-! ## generate_images handler (part_003 lines 489-556)

Each prompt is processed in a sequential for-loop.  The external
generateContent call either throws (its message is recorded in `errors`
keyed by the item's filename) or resolves to a response with a list of
candidates; the first part of the first candidate carrying inlineData is
written to `outputDir/filename` and that filepath is pushed onto
`generatedImages` (the loop breaks after the first such part).  A resolved
response with no candidates, or whose first candidate has no inlineData
part, records nothing at all.  The oracle `gen` covers every behaviour of
the external call, with `thrown` standing for any exception raised inside
the per-item try block. -/

/-- One batch item: a prompt and a destination filename. -/
structure ImagePrompt where
  prompt : Str
  filename : Str
deriving DecidableEq

/-- A response part, possibly carrying inline image data. -/
structure InlinePart where
  inlineData : Option Str
deriving DecidableEq

/-- A response candidate with its content parts. -/
structure GenCandidate where
  parts : List InlinePart
deriving DecidableEq

/-- Outcome of one external image-generation call. -/
inductive GenOutcome
  | thrown (msg : Str)
  | resp (candidates : List GenCandidate)
deriving DecidableEq

/-- How one item resolves inside the loop. -/
inductive ItemOutcome
  | saved (filepath : Str)
  | skipped
  | failed (filename : Str) (msg : Str)
deriving DecidableEq

/-- First part carrying inlineData, as found by the inner for/break loop. -/
def firstInlineData : List InlinePart → Option Str
  | [] => none
  | part :: rest =>
    match part.inlineData with
    | some d => some d
    | none => firstInlineData rest

/-- One iteration of the per-item loop body. -/
def runItem (gen : ImagePrompt → GenOutcome) (outputDir : Str) (p : ImagePrompt) :
    ItemOutcome :=
  match gen p with
  | .thrown m => .failed p.filename m
  | .resp cands =>
    match cands with
    | [] => .skipped
    | c0 :: _ =>
      match firstInlineData c0.parts with
      | some _ => .saved (outputDir ++ str "/" ++ p.filename)
      | none => .skipped

/-- The filepath pushed onto generatedImages by an iteration, if any. -/
def savedPath? : ItemOutcome → Option Str
  | .saved fp => some fp
  | _ => none

/-- The record pushed onto errors by an iteration, if any. -/
def errEntry? : ItemOutcome → Option (Str × Str)
  | .failed f m => some (f, m)
  | _ => none

/-- The JSON report built by the generate_images handler. -/
structure ImagesReport where
  images : List Str
  total : Nat
  successful : Nat
  failed : Nat
  errors : List (Str × Str)
deriving DecidableEq

/-- generate_images: run the loop over all prompts and assemble the report
fields exactly as the handler does (total = prompts.length, successful =
generatedImages.length, failed = errors.length). -/
def generate_images (gen : ImagePrompt → GenOutcome) (outputDir : Str)
    (prompts : List ImagePrompt) : ImagesReport :=
  { images := (prompts.map (runItem gen outputDir)).filterMap savedPath?
    total := prompts.length
    successful := ((prompts.map (runItem gen outputDir)).filterMap savedPath?).length
    failed := ((prompts.map (runItem gen outputDir)).filterMap errEntry?).length
    errors := (prompts.map (runItem gen outputDir)).filterMap errEntry? }

/-- A filterMap length is the count of elements the function keeps. -/
theorem length_filterMap_eq_countP {α β : Type} (f : α → Option β) (l : List α) :
    (l.filterMap f).length = l.countP (fun a => (f a).isSome) := by
  induction l with
  | nil => rfl
  | cons a l ih =>
    cases h : f a <;> simp [List.filterMap_cons, h, List.countP_cons, ih]

/-- Success and failure records of a run of outcomes never outnumber the
outcomes, and account for all of them when none was skipped. -/
theorem outcomes_count (outs : List ItemOutcome) :
    (outs.filterMap savedPath?).length + (outs.filterMap errEntry?).length ≤ outs.length ∧
    ((∀ o ∈ outs, o ≠ ItemOutcome.skipped) →
      (outs.filterMap savedPath?).length + (outs.filterMap errEntry?).length = outs.length) := by
  induction outs with
  | nil => simp
  | cons o os ih =>
    cases o with
    | saved fp =>
      refine ⟨by simp [List.filterMap_cons, savedPath?, errEntry?]; omega, ?_⟩
      intro h
      have := ih.2 (fun o ho => h o (List.mem_cons_of_mem _ ho))
      simp [List.filterMap_cons, savedPath?, errEntry?]
      omega
    | skipped =>
      refine ⟨by simp [List.filterMap_cons, savedPath?, errEntry?]; omega, ?_⟩
      intro h
      exact absurd rfl (h ItemOutcome.skipped (List.mem_cons_self _ _))
    | failed f m =>
      refine ⟨by simp [List.filterMap_cons, savedPath?, errEntry?]; omega, ?_⟩
      intro h
      have := ih.2 (fun o ho => h o (List.mem_cons_of_mem _ ho))
      simp [List.filterMap_cons, savedPath?, errEntry?]
      omega

/-- A saved filepath always is outputDir/filename of the item that produced it. -/
theorem runItem_saved_path (gen : ImagePrompt → GenOutcome) (dir : Str)
    (p : ImagePrompt) (fp : Str)
    (h : savedPath? (runItem gen dir p) = some fp) :
    fp = dir ++ str "/" ++ p.filename := by
  cases hg : gen p with
  | thrown m => simp [runItem, hg, savedPath?] at h
  | resp cands =>
    cases cands with
    | nil => simp [runItem, hg, savedPath?] at h
    | cons c0 rest =>
      cases hf : firstInlineData c0.parts with
      | none => simp [runItem, hg, hf, savedPath?] at h
      | some d =>
        simp [runItem, hg, hf, savedPath?] at h
        simp [List.append_assoc]
        exact h.symm

/-- An item whose call threw resolves to the failure record with its filename. -/
theorem runItem_thrown (gen : ImagePrompt → GenOutcome) (dir : Str)
    (p : ImagePrompt) (m : Str) (h : gen p = GenOutcome.thrown m) :
    runItem gen dir p = ItemOutcome.failed p.filename m := by
  simp [runItem, h]

/-- C2 counterexample: a single item whose call resolves with no candidates is
recorded neither as a success nor as a failure: the report says total = 1,
successful = 0, failed = 0, so successes plus failures do not equal the number
of submitted items — the item is silently dropped. -/
theorem generate_images_drop_counterexample :
    (generate_images (fun _ => GenOutcome.resp []) (str "out")
        [⟨str "p", str "a.png"⟩]).total = 1 ∧
    (generate_images (fun _ => GenOutcome.resp []) (str "out")
        [⟨str "p", str "a.png"⟩]).successful = 0 ∧
    (generate_images (fun _ => GenOutcome.resp []) (str "out")
        [⟨str "p", str "a.png"⟩]).failed = 0 ∧
    (generate_images (fun _ => GenOutcome.resp []) (str "out")
        [⟨str "p", str "a.png"⟩]).successful +
      (generate_images (fun _ => GenOutcome.resp []) (str "out")
        [⟨str "p", str "a.png"⟩]).failed ≠
      (generate_images (fun _ => GenOutcome.resp []) (str "out")
        [⟨str "p", str "a.png"⟩]).total := by
  refine ⟨rfl, rfl, rfl, ?_⟩
  decide

/-- C2 amended: each item resolves to at most one outcome, so successes plus
failures never exceed the number of submitted items, and equal it whenever no
item is skipped, i.e. whenever every item's call either throws or yields a
first candidate carrying inline image data; an item whose call resolves
without such data is silently dropped from both lists. -/
theorem generate_images_accounting (gen : ImagePrompt → GenOutcome) (dir : Str)
    (prompts : List ImagePrompt) :
    (generate_images gen dir prompts).successful + (generate_images gen dir prompts).failed ≤
      (generate_images gen dir prompts).total ∧
    ((∀ p ∈ prompts, runItem gen dir p ≠ ItemOutcome.skipped) →
      (generate_images gen dir prompts).successful + (generate_images gen dir prompts).failed =
        (generate_images gen dir prompts).total) := by
  have hc := outcomes_count (prompts.map (runItem gen dir))
  constructor
  · have := hc.1
    simpa [generate_images] using this
  · intro h
    have hall : ∀ o ∈ prompts.map (runItem gen dir), o ≠ ItemOutcome.skipped := by
      intro o ho
      rcases List.mem_map.1 ho with ⟨p, hp, rfl⟩
      exact h p hp
    have := hc.2 hall
    simpa [generate_images] using this

/-- Witness for C2 amended: with one throwing item and one item returning
inline data, successes plus failures equal the total. -/
theorem generate_images_accounting_witness :
    (generate_images
        (fun p => if p.prompt = str "p1"
          then GenOutcome.resp [⟨[⟨some (str "d")⟩]⟩]
          else GenOutcome.thrown (str "boom"))
        (str "out") [⟨str "p1", str "a.png"⟩, ⟨str "p2", str "b.png"⟩]).successful +
      (generate_images
        (fun p => if p.prompt = str "p1"
          then GenOutcome.resp [⟨[⟨some (str "d")⟩]⟩]
          else GenOutcome.thrown (str "boom"))
        (str "out") [⟨str "p1", str "a.png"⟩, ⟨str "p2", str "b.png"⟩]).failed =
      (generate_images
        (fun p => if p.prompt = str "p1"
          then GenOutcome.resp [⟨[⟨some (str "d")⟩]⟩]
          else GenOutcome.thrown (str "boom"))
        (str "out") [⟨str "p1", str "a.png"⟩, ⟨str "p2", str "b.png"⟩]).total :=
  (generate_images_accounting _ (str "out")
    [⟨str "p1", str "a.png"⟩, ⟨str "p2", str "b.png"⟩]).2 (by decide)

/-- C1 counterexample: two batch items sharing the destination filename a.png,
where the first succeeds and the second errors.  The report counts one success
and one failure, the failed item's filename appears in the error list — but its
destination out/a.png is also present in the success list, contradicting the
claim that a failed item's filename is absent from the success list for every
batch. -/
theorem generate_images_duplicate_counterexample :
    (generate_images
        (fun p => if p.prompt = str "p1"
          then GenOutcome.resp [⟨[⟨some (str "d")⟩]⟩]
          else GenOutcome.thrown (str "boom"))
        (str "out") [⟨str "p1", str "a.png"⟩, ⟨str "p2", str "a.png"⟩]).total = 2 ∧
    (generate_images
        (fun p => if p.prompt = str "p1"
          then GenOutcome.resp [⟨[⟨some (str "d")⟩]⟩]
          else GenOutcome.thrown (str "boom"))
        (str "out") [⟨str "p1", str "a.png"⟩, ⟨str "p2", str "a.png"⟩]).errors =
      [(str "a.png", str "boom")] ∧
    str "out" ++ str "/" ++ str "a.png" ∈
      (generate_images
        (fun p => if p.prompt = str "p1"
          then GenOutcome.resp [⟨[⟨some (str "d")⟩]⟩]
          else GenOutcome.thrown (str "boom"))
        (str "out") [⟨str "p1", str "a.png"⟩, ⟨str "p2", str "a.png"⟩]).images := by
  refine ⟨rfl, by decide, by decide⟩

/-- C1 amended: for every batch whose items carry pairwise-distinct destination
filenames, the report has total = number of submitted items, successful = the
count of items whose artifact was persisted, failed = the count of items that
errored; each failed item's filename appears in the error list and its
destination path is absent from the success list; and processing is
compositional over concatenation of batches, so a failure for one item never
prevents attempts on the remaining items. -/
theorem generate_images_report (gen : ImagePrompt → GenOutcome) (dir : Str)
    (prompts : List ImagePrompt)
    (hnd : (prompts.map ImagePrompt.filename).Nodup) :
    (generate_images gen dir prompts).total = prompts.length ∧
    (generate_images gen dir prompts).successful =
      prompts.countP (fun p => (savedPath? (runItem gen dir p)).isSome) ∧
    (generate_images gen dir prompts).failed =
      prompts.countP (fun p => (errEntry? (runItem gen dir p)).isSome) ∧
    (∀ p ∈ prompts, ∀ m, gen p = GenOutcome.thrown m →
      (p.filename, m) ∈ (generate_images gen dir prompts).errors ∧
      dir ++ str "/" ++ p.filename ∉ (generate_images gen dir prompts).images) ∧
    (∀ ps2, (generate_images gen dir (prompts ++ ps2)).images =
        (generate_images gen dir prompts).images ++ (generate_images gen dir ps2).images ∧
      (generate_images gen dir (prompts ++ ps2)).errors =
        (generate_images gen dir prompts).errors ++ (generate_images gen dir ps2).errors) := by
  refine ⟨rfl, ?_, ?_, ?_, ?_⟩
  · show ((prompts.map (runItem gen dir)).filterMap savedPath?).length = _
    rw [List.filterMap_map, length_filterMap_eq_countP]
    rfl
  · show ((prompts.map (runItem gen dir)).filterMap errEntry?).length = _
    rw [List.filterMap_map, length_filterMap_eq_countP]
    rfl
  · intro p hp m hm
    constructor
    · show (p.filename, m) ∈ (prompts.map (runItem gen dir)).filterMap errEntry?
      rw [List.filterMap_map]
      exact List.mem_filterMap.2
        ⟨p, hp, by simp [Function.comp, runItem_thrown gen dir p m hm, errEntry?]⟩
    · intro hmem
      have hmem2 : dir ++ str "/" ++ p.filename ∈
          (prompts.map (runItem gen dir)).filterMap savedPath? := hmem
      rw [List.filterMap_map] at hmem2
      rcases List.mem_filterMap.1 hmem2 with ⟨q, hq, hsq⟩
      have hpath := runItem_saved_path gen dir q _ hsq
      have hfn : p.filename = q.filename := List.append_cancel_left hpath
      have hqp : q = p := List.inj_on_of_nodup_map hnd hq hp hfn.symm
      subst hqp
      rw [show (savedPath? ∘ runItem gen dir) q = savedPath? (runItem gen dir q) from rfl,
        runItem_thrown gen dir q m hm] at hsq
      simp [savedPath?] at hsq
  · intro ps2
    constructor <;> simp [generate_images, List.filterMap_append]

/-- Witness for C1 amended at a two-item batch with distinct filenames where
the first item is persisted and the second throws. -/
theorem generate_images_report_witness :
    (str "b.png", str "boom") ∈
      (generate_images
        (fun p => if p.prompt = str "p2"
          then GenOutcome.thrown (str "boom")
          else GenOutcome.resp [⟨[⟨some (str "d")⟩]⟩])
        (str "out") [⟨str "p1", str "a.png"⟩, ⟨str "p2", str "b.png"⟩]).errors ∧
    str "out" ++ str "/" ++ str "b.png" ∉
      (generate_images
        (fun p => if p.prompt = str "p2"
          then GenOutcome.thrown (str "boom")
          else GenOutcome.resp [⟨[⟨some (str "d")⟩]⟩])
        (str "out") [⟨str "p1", str "a.png"⟩, ⟨str "p2", str "b.png"⟩]).images := by
  have h := generate_images_report
    (fun p => if p.prompt = str "p2"
      then GenOutcome.thrown (str "boom")
      else GenOutcome.resp [⟨[⟨some (str "d")⟩]⟩])
    (str "out") [⟨str "p1", str "a.png"⟩, ⟨str "p2", str "b.png"⟩] (by decide)
  have h2 := h.2.2.2.1 ⟨str "p2", str "b.png"⟩ (by decide) (str "boom") (by decide)
  exact h2

/-! ## assemble_markdown handler (part_003 lines 558-586)

The draft is a string; with at least one image, the hero tag plus two
newlines is prepended, the result is split on the JS regular expression
matching a newline, two hash marks and one whitespace character, section
pieces 1 .. min(sections, images) - 1 are prefixed with their section tag
and a restored "## " heading marker, and the pieces are rejoined with a
single newline.  With zero images the draft passes through untouched. -/

/-- JS \s: the whitespace class of the split pattern. -/
def isJsWs (c : Char) : Bool :=
  c = ' ' || c = '\t' || c = '\n' || c = '\x0b' || c = '\x0c' || c = '\r' ||
  c = '\u00a0' || c = '\u1680' || ('\u2000' ≤ c && c ≤ '\u200a') ||
  c = '\u2028' || c = '\u2029' || c = '\u202f' || c = '\u205f' ||
  c = '\u3000' || c = '\ufeff'

/-- Does the text begin with the tail of the split pattern: two hash marks
followed by one whitespace character? -/
def bdryMatch (l : Str) : Bool :=
  l.headD ' ' == '#' && (l.drop 1).headD ' ' == '#' && isJsWs ((l.drop 2).headD 'x')

/-- Prepend a character to the first piece of a split. -/
def consHead (c : Char) : List Str → List Str
  | [] => [[c]]
  | p :: ps => (c :: p) :: ps

/-- JS String.prototype.split on the boundary pattern: scan left to right,
each match of newline-hash-hash-whitespace ends the current piece and is
consumed.  A true bdryMatch guarantees at least three remaining characters,
so the inner match is total on reachable inputs. -/
def splitBdry : Str → List Str
  | [] => [[]]
  | c :: rest =>
    if c == '\n' && bdryMatch rest then
      match rest with
      | _ :: _ :: _ :: rest3 => [] :: splitBdry rest3
      | _ => [[]]
    else
      consHead c (splitBdry rest)

/-- The hero image tag prepended before the draft. -/
def heroTag (img : Str) : Str :=
  str "![Hero Image](" ++ img ++ str ")\n\n"

/-- The section image tag inserted at boundary i. -/
def sectionTag (i : Nat) (img : Str) : Str :=
  str "![Section " ++ (toString i).toList ++ str "](" ++ img ++ str ")"

/-- The separator re-inserted after a section tag: two newlines and the
restored heading marker. -/
def secSep : Str := str "\n\n## "

/-- The for-loop over section pieces 1 .. min(sections, images) - 1. -/
def insertImages (sections images : List Str) : List Str :=
  sections.enum.map (fun iv =>
    if 1 ≤ iv.1 ∧ iv.1 < min sections.length images.length then
      sectionTag iv.1 (images.getD iv.1 []) ++ secSep ++ iv.2
    else iv.2)

/-- assemble_markdown: the assembled markdown string returned by the handler
(the response wraps it, together with the format hint, in the
assembled_markdown field; no error field exists on this path). -/
def assemble_markdown (draft : Str) (images : List Str) : Str :=
  if 0 < images.length then
    if 1 < (splitBdry (heroTag (images.headD []) ++ draft)).length ∧ 1 < images.length then
      List.intercalate ['\n']
        (insertImages (splitBdry (heroTag (images.headD []) ++ draft)) images)
    else heroTag (images.headD []) ++ draft
  else draft

/-- C8: assemble_markdown with an empty image list returns the draft unchanged. -/
theorem assemble_markdown_no_images (draft : Str) :
    assemble_markdown draft [] = draft := by
  simp [assemble_markdown]

/-- C9: assemble_markdown is deterministic: two runs on equal drafts and equal
image lists produce byte-for-byte identical output.  The handler is modelled
as a pure function of exactly these two arguments because the source handler
reads no mutable state, no clock and no randomness and makes no external
call. -/
theorem assemble_markdown_deterministic (d1 d2 : Str) (i1 i2 : List Str)
    (hd : d1 = d2) (hi : i1 = i2) :
    assemble_markdown d1 i1 = assemble_markdown d2 i2 := by
  subst hd
  subst hi
  rfl

/-- Witness for C9 at a concrete draft and image list. -/
theorem assemble_markdown_deterministic_witness :
    assemble_markdown (str "Intro\n## A") [str "h.png", str "1.png"] =
      assemble_markdown (str "Intro\n## A") [str "h.png", str "1.png"] :=
  assemble_markdown_deterministic (str "Intro\n## A") (str "Intro\n## A")
    [str "h.png", str "1.png"] [str "h.png", str "1.png"] rfl rfl

/-- A split never produces an empty list of pieces. -/
theorem splitBdry_ne_nil (l : Str) : splitBdry l ≠ [] := by
  cases l with
  | nil =>
    rw [splitBdry.eq_def]
    simp
  | cons c rest =>
    by_cases h : (c == '\n' && bdryMatch rest) = true
    · rcases rest with _ | ⟨a, _ | ⟨b, _ | ⟨d, t⟩⟩⟩ <;> (rw [splitBdry.eq_def]; simp [h])
    · rw [splitBdry.eq_def]
      simp only [h, if_neg]
      cases hs : splitBdry rest <;> simp [consHead]

/-- Extend the first piece of a split on the left. -/
def extendHead (p : Str) : List Str → List Str
  | [] => [p]
  | q :: qs => (p ++ q) :: qs

theorem consHead_extendHead (c : Char) (p : Str) (L : List Str) :
    consHead c (extendHead p L) = extendHead (c :: p) L := by
  cases L <;> simp [consHead, extendHead]

theorem extendHead_nil_arg (L : List Str) (h : L ≠ []) : extendHead [] L = L := by
  cases L with
  | nil => exact absurd rfl h
  | cons q qs => simp [extendHead]

/-- A prefix containing no newline cannot take part in any boundary match, so
splitting after prepending it just extends the first piece. -/
theorem splitBdry_append_no_nl (p s : Str) (hp : ∀ c ∈ p, c ≠ '\n') :
    splitBdry (p ++ s) = extendHead p (splitBdry s) := by
  induction p with
  | nil => simpa using (extendHead_nil_arg _ (splitBdry_ne_nil s)).symm
  | cons c p ih =>
    have hc : (c == '\n') = false := by
      simpa using hp c (List.mem_cons_self c p)
    have hrest : ∀ d ∈ p, d ≠ '\n' := fun d hd => hp d (List.mem_cons_of_mem _ hd)
    calc splitBdry ((c :: p) ++ s) = consHead c (splitBdry (p ++ s)) := by
          rw [List.cons_append, splitBdry.eq_def]
          simp [hc]
      _ = consHead c (extendHead p (splitBdry s)) := by rw [ih hrest]
      _ = extendHead (c :: p) (splitBdry s) := consHead_extendHead c p (splitBdry s)

/-- Splitting across the two newlines at the end of the hero tag adds no
boundary as long as the draft itself does not begin with the hash-hash-space
tail of the pattern. -/
theorem splitBdry_two_nl (s : Str) (hs : bdryMatch s = false) :
    splitBdry ('\n' :: '\n' :: s) = consHead '\n' (consHead '\n' (splitBdry s)) := by
  have h0 : ('\n' == '#') = false := by decide
  have h1 : bdryMatch ('\n' :: s) = false := by
    simp [bdryMatch, h0]
  rw [splitBdry.eq_def]
  simp only [h1, Bool.and_false, if_neg]
  rw [splitBdry.eq_def]
  simp [hs]

/-- C7 counterexample: the base document has exactly 3 top-level section
boundaries (its split has 4 pieces) and 5 images are supplied, yet the output
is not independent of the 5th image: because the document begins with a
heading, prepending the hero tag creates a fourth boundary right before it, so
all four remaining images are inserted and none is dropped — contradicting the
claim that exactly 3 of the remaining 4 images are inserted and the 4th is
dropped for every such document. -/
theorem assemble_markdown_heading_start_counterexample :
    (splitBdry (str "## A\n## B\n## C\n## D")).length = 4 ∧
    assemble_markdown (str "## A\n## B\n## C\n## D")
        [str "h.png", str "1.png", str "2.png", str "3.png", str "4.png"] ≠
      assemble_markdown (str "## A\n## B\n## C\n## D")
        [str "h.png", str "1.png", str "2.png", str "3.png", str "XXX.png"] := by
  constructor
  · decide
  · decide

/-- C7 amended: for every base document with exactly 3 top-level section
boundaries that does not itself begin with the hash-hash-whitespace tail of
the boundary pattern (which would become a fourth boundary once the hero tag
is prepended), and whose first image path contains no newline (which would
likewise create extra boundaries inside the hero tag), the output is the
hero tag of the first image before the document content, followed by the
3 pieces, with images 2 to 4 inserted at the 3 boundaries in input order;
the 5th image is dropped silently — the output does not depend on it, and
this code path produces no error field. -/
theorem assemble_markdown_three_boundaries (draft i0 i1 i2 i3 i4 s0 s1 s2 s3 : Str)
    (h0 : splitBdry draft = [s0, s1, s2, s3])
    (h1 : bdryMatch draft = false)
    (h2 : '\n' ∉ i0) :
    assemble_markdown draft [i0, i1, i2, i3, i4] =
      heroTag i0 ++ s0 ++ '\n' :: (sectionTag 1 i1 ++ secSep ++ s1) ++
        '\n' :: (sectionTag 2 i2 ++ secSep ++ s2) ++
        '\n' :: (sectionTag 3 i3 ++ secSep ++ s3) ∧
    ∀ j : Str, assemble_markdown draft [i0, i1, i2, i3, j] =
      assemble_markdown draft [i0, i1, i2, i3, i4] := by
  have hno : ∀ c ∈ (str "![Hero Image](" ++ i0 ++ [')']), c ≠ '\n' := by
    intro c hc
    have lit1 : ∀ d ∈ str "![Hero Image](", d ≠ '\n' := by decide
    have lit2 : ∀ d ∈ ([')'] : Str), d ≠ '\n' := by decide
    rcases List.mem_append.1 hc with hc2 | hc2
    · rcases List.mem_append.1 hc2 with hc3 | hc3
      · exact lit1 c hc3
      · intro heq
        exact h2 (heq ▸ hc3)
    · exact lit2 c hc2
  have hsections : splitBdry (heroTag i0 ++ draft) =
      [(str "![Hero Image](" ++ i0 ++ [')']) ++ '\n' :: '\n' :: s0, s1, s2, s3] := by
    have e1 : heroTag i0 ++ draft =
        (str "![Hero Image](" ++ i0 ++ [')']) ++ ('\n' :: '\n' :: draft) := by
      simp [heroTag, str, List.append_assoc]
    rw [e1, splitBdry_append_no_nl _ _ hno, splitBdry_two_nl draft h1, h0]
    simp [consHead, extendHead]
  have key : ∀ j : Str, assemble_markdown draft [i0, i1, i2, i3, j] =
      heroTag i0 ++ s0 ++ '\n' :: (sectionTag 1 i1 ++ secSep ++ s1) ++
        '\n' :: (sectionTag 2 i2 ++ secSep ++ s2) ++
        '\n' :: (sectionTag 3 i3 ++ secSep ++ s3) := by
    intro j
    show (if 0 < ([i0, i1, i2, i3, j] : List Str).length then _ else _) = _
    rw [if_pos (by simp)]
    rw [show ([i0, i1, i2, i3, j] : List Str).headD [] = i0 from rfl]
    rw [hsections]
    rw [if_pos (by simp)]
    show List.intercalate ['\n'] (insertImages
      [(str "![Hero Image](" ++ i0 ++ [')']) ++ '\n' :: '\n' :: s0, s1, s2, s3]
      [i0, i1, i2, i3, j]) = _
    have hins : insertImages
        [(str "![Hero Image](" ++ i0 ++ [')']) ++ '\n' :: '\n' :: s0, s1, s2, s3]
        [i0, i1, i2, i3, j] =
        [(str "![Hero Image](" ++ i0 ++ [')']) ++ '\n' :: '\n' :: s0,
         sectionTag 1 i1 ++ secSep ++ s1,
         sectionTag 2 i2 ++ secSep ++ s2,
         sectionTag 3 i3 ++ secSep ++ s3] := rfl
    rw [hins]
    show ((str "![Hero Image](" ++ i0 ++ [')']) ++ '\n' :: '\n' :: s0) ++
        '\n' :: ((sectionTag 1 i1 ++ secSep ++ s1) ++
          '\n' :: ((sectionTag 2 i2 ++ secSep ++ s2) ++
            '\n' :: ((sectionTag 3 i3 ++ secSep ++ s3) ++ []))) = _
    simp [heroTag, str, List.append_assoc]
  exact ⟨key i4, fun j => (key j).trans (key i4).symm⟩

/-- Witness for C7 amended at a concrete draft with three boundaries and five
images. -/
theorem assemble_markdown_three_boundaries_witness :
    assemble_markdown (str "Intro\n## A\nx\n## B\ny\n## C\nz")
        [str "h.png", str "1.png", str "2.png", str "3.png", str "4.png"] =
      heroTag (str "h.png") ++ str "Intro" ++
        '\n' :: (sectionTag 1 (str "1.png") ++ secSep ++ str "A\nx") ++
        '\n' :: (sectionTag 2 (str "2.png") ++ secSep ++ str "B\ny") ++
        '\n' :: (sectionTag 3 (str "3.png") ++ secSep ++ str "C\nz") :=
  (assemble_markdown_three_boundaries (str "Intro\n## A\nx\n## B\ny\n## C\nz")
    (str "h.png") (str "1.png") (str "2.png") (str "3.png") (str "4.png")
    (str "Intro") (str "A\nx") (str "B\ny") (str "C\nz")
    (by decide) (by decide) (by decide)).1
